import Mathlib

/-!
# Verification of the Voice-Cloning app (`src/app.py`)

Shallow embedding of the three event handlers of the application:
`save_voice`, `clone_and_speak` (Basic mode) and `clone_with_voice_design`
(Pro mode), together with proofs of the behavioural claims about them.

The external collaborators (the file system, the waveform writer `sf.write`
and the ElevenLabs HTTP client) are modelled as explicit data:
* the file system is an association list from paths to file contents;
* the outcome of the three remote operations (`voices.add`,
  `text_to_speech.convert`, `voices.delete`) is supplied by an `Api` record,
  playing the role of a mocked client;
* a possible exception of `sf.write` is supplied as an `Option String`
  (the exception message), `none` meaning the write succeeds.

Each generation call returns, besides the `(audio_path, status_message)`
pair of the Python function, the updated state and a `Trace` recording
which network calls were performed, so that claims about cleanup and about
the absence of network calls can be stated.
-/

set_option autoImplicit false

namespace VoiceClone

/-- Contents of a file: either a waveform written by `sf.write`
(sample rate and samples), or raw bytes written by the generation loop. -/
inductive FileData where
  | wav (sample_rate : Nat) (samples : List Int) : FileData
  | bytes (content : List Nat) : FileData
deriving DecidableEq, Repr

/-- The file system visible to the app: association list from path to data. -/
abbrev FileSys := List (String × FileData)

/-- Look a path up in the file system (`os.path.exists` / reading a file). -/
def lookupFile : FileSys → String → Option FileData
  | [], _ => none
  | (q, d) :: t, p => if q == p then some d else lookupFile t p

/-- Write a file, overwriting any previous content at that path. -/
def setFile : FileSys → String → FileData → FileSys
  | [], p, d => [(p, d)]
  | (q, e) :: t, p, d => if q == p then (p, d) :: t else (q, e) :: setFile t p d

/-- Process state of the app: the global `saved_voice_path` variable and
the file system it reads and writes. -/
structure AppState where
  saved_voice_path : Option String
  files : FileSys
deriving DecidableEq, Repr

/-- Result of a remote call: a value, or an exception carrying `str(e)`. -/
inductive ApiResult (α : Type) where
  | ok (val : α) : ApiResult α
  | err (msg : String) : ApiResult α
deriving DecidableEq, Repr

/-- Mocked ElevenLabs client: the outcome of `voices.add` (a voice id or an
error), of `text_to_speech.convert` (a stream of byte chunks or an error),
and whether `voices.delete` succeeds (its outcome is swallowed either way). -/
structure Api where
  addVoice : ApiResult String
  convert : ApiResult (List (List Nat))
  deleteOk : Bool
deriving DecidableEq, Repr

/-- Which network calls a generation call performed, and with which voice id
`voices.delete` was invoked (if at all). -/
structure Trace where
  add_voice_calls : Nat
  convert_calls : Nat
  delete_called_with : Option String
deriving DecidableEq, Repr

/-- Full outcome of a generation call: the `(audio_path, status_message)`
pair returned to Gradio, the updated process state, and the call trace. -/
structure GenOut where
  result : Option String × String
  state : AppState
  trace : Trace
deriving DecidableEq, Repr

/-! ## String helpers: Python `in` and `str.lower()` -/

/-- `startsWithL needle hay`: `needle` occurs at the start of `hay`. -/
def startsWithL : List Char → List Char → Bool
  | [], _ => true
  | _ :: _, [] => false
  | a :: as, b :: bs => a == b && startsWithL as bs

/-- `subOccurs needle hay`: `needle` occurs somewhere in `hay`
(Python `needle in hay` on strings, on the character lists). -/
def subOccurs (needle : List Char) : List Char → Bool
  | [] => startsWithL needle []
  | c :: t => startsWithL needle (c :: t) || subOccurs needle t

/-- Python `needle in hay` for strings. -/
def strContains (hay needle : String) : Bool :=
  subOccurs needle.toList hay.toList

/-- Python `s.lower()` (ASCII case folding, as used by the app). -/
def strLower (s : String) : String :=
  String.mk (s.toList.map Char.toLower)

/-- Python `s.strip()`: remove leading and trailing whitespace. -/
def pyStrip (s : String) : String :=
  String.mk (((s.toList.dropWhile Char.isWhitespace).reverse.dropWhile Char.isWhitespace).reverse)

/-! ## Fixed paths and status messages (verbatim from `app.py`) -/

/-- `VOICES_DIR / "my_voice.wav"` as a path string. -/
def voice_filename : String := "voices/my_voice.wav"

/-- The fixed output path of both generation functions. -/
def output_path : String := "generated_speech.mp3"

def noAudioMsg : String := "❌ No audio recorded. Please record your voice first."

def saveOkMsg : String := "✅ Voice saved successfully to voices/my_voice.wav!"

def emptyTextMsg : String := "❌ Please enter some text to generate speech."

def missingKeyMsg : String := "❌ Please enter your ElevenLabs API key."

def noVoiceMsg : String := "❌ No voice saved. Please record and save your voice first."

def invalidKeyMsg : String := "❌ Invalid API key. Please check your ElevenLabs API key."

def quotaMsg : String := "❌ API quota exceeded. Please check your ElevenLabs account."

def basicPlanMsg : String :=
  "❌ Instant Voice Cloning via API requires a \x27Starter\x27 plan or higher. Free users can only use character-based voices in the Dashboard."

def proPlanMsg : String :=
  "❌ Voice cloning requires a paid ElevenLabs plan. Try the basic method instead."

def basicSuccessMsg : String := "✅ Speech generated using YOUR voice! Listen below."

def proSuccessMsg : String := "✅ Speech generated with voice cloning! Listen below."

/-! ## `save_voice` (`app.py` lines 17-45) -/

/-- `save_voice(audio_tuple)`. The extra argument `write_exc` models the
external `sf.write` call: `none` means it returns normally, `some e` means
it raises an exception whose `str` is `e` (caught at line 44). The global
`saved_voice_path` is assigned only after `sf.write` returns (lines 39-40). -/
def save_voice (audio_tuple : Option (Nat × List Int)) (write_exc : Option String)
    (st : AppState) : String × AppState :=
  match audio_tuple with
  | none => (noAudioMsg, st)
  | some (sample_rate, audio_data) =>
    match write_exc with
    | some e => ("❌ Error saving voice: " ++ e, st)
    | none =>
      (saveOkMsg,
       { saved_voice_path := some voice_filename,
         files := setFile st.files voice_filename (.wav sample_rate audio_data) })

/-! ## Error classification (`app.py` lines 114-123 and 183-190) -/

/-- The `except` branch of `clone_and_speak` (lines 114-123): map the error
message to a user-facing status string by substring inspection. -/
def classify_basic (error_msg : String) : String :=
  let low := strLower error_msg
  if strContains low "invalid_api_key" || strContains low "unauthorized" ||
      strContains error_msg "401" then
    invalidKeyMsg
  else if strContains low "quota" || strContains low "limit" then
    quotaMsg
  else if strContains low "subscription" || strContains low "plan" ||
      strContains error_msg "403" then
    basicPlanMsg
  else
    "❌ Error generating speech: " ++ error_msg

/-- The `except` branch of `clone_with_voice_design` (lines 183-190). -/
def classify_pro (error_msg : String) : String :=
  let low := strLower error_msg
  if strContains low "invalid_api_key" || strContains low "unauthorized" ||
      strContains error_msg "401" then
    invalidKeyMsg
  else if strContains low "quota" || strContains low "subscription" ||
      strContains low "plan" then
    proPlanMsg
  else
    "❌ Error with voice cloning: " ++ error_msg

/-! ## The generation functions (`app.py` lines 48-123 and 126-190) -/

/-- Line 68 / 147: `saved_voice_path is None or not os.path.exists(saved_voice_path)`
(negated: a voice is saved and its file is on disk). -/
def has_saved_voice (st : AppState) : Bool :=
  match st.saved_voice_path with
  | none => false
  | some p => (lookupFile st.files p).isSome

/-- Lines 101-104 / 170-173: `for chunk in stream: if chunk: f.write(chunk)`,
appending to the (freshly truncated) output file content `acc`. -/
def writeChunksLoop : List (List Nat) → List Nat → List Nat
  | [], acc => acc
  | c :: rest, acc => writeChunksLoop rest (if c.isEmpty then acc else acc ++ c)

/-- `clone_and_speak(text, api_key)` (Basic mode, lines 48-123).
Remote outcomes are supplied by `api`. If `voices.add` raises, the handler
at line 114 classifies the message: `convert` is never called and neither is
`delete`. If `convert` raises, the same handler runs: `delete` is not
reached. On success the chunk loop writes the output file, then `delete`
is attempted inside its own `try/except: pass` (lines 107-110), so its
outcome (`api.deleteOk`) influences nothing. -/
def clone_and_speak (api : Api) (text api_key : String) (st : AppState) : GenOut :=
  if text == "" || pyStrip text == "" then
    ⟨(none, emptyTextMsg), st, ⟨0, 0, none⟩⟩
  else if api_key == "" || pyStrip api_key == "" then
    ⟨(none, missingKeyMsg), st, ⟨0, 0, none⟩⟩
  else if !has_saved_voice st then
    ⟨(none, noVoiceMsg), st, ⟨0, 0, none⟩⟩
  else
    match api.addVoice with
    | .err e => ⟨(none, classify_basic e), st, ⟨1, 0, none⟩⟩
    | .ok voice_id =>
      match api.convert with
      | .err e => ⟨(none, classify_basic e), st, ⟨1, 1, none⟩⟩
      | .ok chunks =>
        ⟨(some output_path, basicSuccessMsg),
         { st with files := setFile st.files output_path (.bytes (writeChunksLoop chunks [])) },
         ⟨1, 1, some voice_id⟩⟩

/-- `clone_with_voice_design(text, api_key)` (Pro mode, lines 126-190).
Identical control flow; only the classifier and messages differ. -/
def clone_with_voice_design (api : Api) (text api_key : String) (st : AppState) : GenOut :=
  if text == "" || pyStrip text == "" then
    ⟨(none, emptyTextMsg), st, ⟨0, 0, none⟩⟩
  else if api_key == "" || pyStrip api_key == "" then
    ⟨(none, missingKeyMsg), st, ⟨0, 0, none⟩⟩
  else if !has_saved_voice st then
    ⟨(none, noVoiceMsg), st, ⟨0, 0, none⟩⟩
  else
    match api.addVoice with
    | .err e => ⟨(none, classify_pro e), st, ⟨1, 0, none⟩⟩
    | .ok voice_id =>
      match api.convert with
      | .err e => ⟨(none, classify_pro e), st, ⟨1, 1, none⟩⟩
      | .ok chunks =>
        ⟨(some output_path, proSuccessMsg),
         { st with files := setFile st.files output_path (.bytes (writeChunksLoop chunks [])) },
         ⟨1, 1, some voice_id⟩⟩

/-! ## Concrete fixtures for witnesses and counterexamples -/

/-- A state in which a voice has been saved and its file is on disk. -/
def stV : AppState := ⟨some voice_filename, [(voice_filename, .wav 16000 [0, 1])]⟩

/-- The initial state: no voice saved, empty file system. -/
def st0 : AppState := ⟨none, []⟩

/-- A mocked client for which both remote steps succeed. -/
def apiOk : Api := ⟨.ok "v1", .ok [[1, 2], [], [3]], true⟩

/-- A mocked client for which cloning succeeds and synthesis raises. -/
def apiSynthFails : Api := ⟨.ok "v1", .err "synthesis failed", true⟩

/-- A mocked client for which cloning raises with a quota-limit message. -/
def apiLimit : Api := ⟨.err "limit reached", .err "limit reached", true⟩

/-- A mocked client for which cloning raises with a 401 message that also
mentions quota and plan. -/
def api401 : Api := ⟨.err "401 quota plan subscription limit", .ok [], true⟩

/-! ## Helper lemmas -/

theorem pyStrip_empty : pyStrip "" = "" := rfl

/-- If the stripped string is empty, the guard `not s or s.strip() == ""`
(line 62/65/141/144) is true. -/
theorem strip_cond_true {s : String} (h : pyStrip s = "") :
    (s == "" || pyStrip s == "") = true := by
  rw [h]
  simp

/-- If the stripped string is non-empty, the guard is false. -/
theorem strip_cond_false {s : String} (h : pyStrip s ≠ "") :
    (s == "" || pyStrip s == "") = false := by
  have hs : s ≠ "" := by
    intro he
    apply h
    subst he
    rfl
  rw [Bool.or_eq_false_iff]
  exact ⟨beq_eq_false_iff_ne.mpr hs, beq_eq_false_iff_ne.mpr h⟩

/-- Reading back a freshly written file returns what was written. -/
theorem lookupFile_setFile (fs : FileSys) (p : String) (d : FileData) :
    lookupFile (setFile fs p d) p = some d := by
  induction fs with
  | nil => simp [setFile, lookupFile]
  | cons hd t ih =>
    obtain ⟨q, e⟩ := hd
    cases h : (q == p) with
    | true => simp [setFile, lookupFile, h]
    | false => simp [setFile, lookupFile, h, ih]

/-- The chunk-writing loop appends exactly the non-empty chunks, in order. -/
theorem writeChunksLoop_eq (chunks : List (List Nat)) (acc : List Nat) :
    writeChunksLoop chunks acc = acc ++ (chunks.filter (fun c => !c.isEmpty)).flatten := by
  induction chunks generalizing acc with
  | nil => simp [writeChunksLoop]
  | cons c rest ih =>
    cases h : c.isEmpty with
    | true => simp [writeChunksLoop, h, ih, List.filter]
    | false => simp [writeChunksLoop, h, ih, List.filter, List.append_assoc]

/-- Once the three validations pass, `clone_and_speak` is determined by the
two remote outcomes. -/
theorem clone_and_speak_validation_pass (api : Api) (text key : String) (st : AppState)
    (hT : pyStrip text ≠ "") (hK : pyStrip key ≠ "") (hv : has_saved_voice st = true) :
    clone_and_speak api text key st =
      (match api.addVoice with
       | .err e => ⟨(none, classify_basic e), st, ⟨1, 0, none⟩⟩
       | .ok voice_id =>
         match api.convert with
         | .err e => ⟨(none, classify_basic e), st, ⟨1, 1, none⟩⟩
         | .ok chunks =>
           ⟨(some output_path, basicSuccessMsg),
            { st with files := setFile st.files output_path (.bytes (writeChunksLoop chunks [])) },
            ⟨1, 1, some voice_id⟩⟩) := by
  unfold clone_and_speak
  rw [strip_cond_false hT, strip_cond_false hK, hv]
  rfl

/-- Once the three validations pass, `clone_with_voice_design` is determined
by the two remote outcomes. -/
theorem clone_with_voice_design_validation_pass (api : Api) (text key : String) (st : AppState)
    (hT : pyStrip text ≠ "") (hK : pyStrip key ≠ "") (hv : has_saved_voice st = true) :
    clone_with_voice_design api text key st =
      (match api.addVoice with
       | .err e => ⟨(none, classify_pro e), st, ⟨1, 0, none⟩⟩
       | .ok voice_id =>
         match api.convert with
         | .err e => ⟨(none, classify_pro e), st, ⟨1, 1, none⟩⟩
         | .ok chunks =>
           ⟨(some output_path, proSuccessMsg),
            { st with files := setFile st.files output_path (.bytes (writeChunksLoop chunks [])) },
            ⟨1, 1, some voice_id⟩⟩) := by
  unfold clone_with_voice_design
  rw [strip_cond_false hT, strip_cond_false hK, hv]
  rfl

/-! ## Claims -/

/-- Claim C3: `generate` checks its three preconditions in order — text
non-empty after stripping, then API key non-empty after stripping, then a
saved voice recording whose file is present on disk — short-circuiting on
the first failure and returning `(none, corresponding message)` with the
state unchanged and no network call performed (zero trace), identically in
Basic and Pro modes. -/
theorem C3_preconditions_checked_in_order (api : Api) (text key : String) (st : AppState) :
    (pyStrip text = "" →
      clone_and_speak api text key st = ⟨(none, emptyTextMsg), st, ⟨0, 0, none⟩⟩ ∧
      clone_with_voice_design api text key st = ⟨(none, emptyTextMsg), st, ⟨0, 0, none⟩⟩) ∧
    (pyStrip text ≠ "" → pyStrip key = "" →
      clone_and_speak api text key st = ⟨(none, missingKeyMsg), st, ⟨0, 0, none⟩⟩ ∧
      clone_with_voice_design api text key st = ⟨(none, missingKeyMsg), st, ⟨0, 0, none⟩⟩) ∧
    (pyStrip text ≠ "" → pyStrip key ≠ "" → has_saved_voice st = false →
      clone_and_speak api text key st = ⟨(none, noVoiceMsg), st, ⟨0, 0, none⟩⟩ ∧
      clone_with_voice_design api text key st = ⟨(none, noVoiceMsg), st, ⟨0, 0, none⟩⟩) := by
  refine ⟨fun hT => ⟨?_, ?_⟩, fun hT hK => ⟨?_, ?_⟩, fun hT hK hv => ⟨?_, ?_⟩⟩
  · unfold clone_and_speak
    rw [strip_cond_true hT]
    rfl
  · unfold clone_with_voice_design
    rw [strip_cond_true hT]
    rfl
  · unfold clone_and_speak
    rw [strip_cond_false hT, strip_cond_true hK]
    rfl
  · unfold clone_with_voice_design
    rw [strip_cond_false hT, strip_cond_true hK]
    rfl
  · unfold clone_and_speak
    rw [strip_cond_false hT, strip_cond_false hK, hv]
    rfl
  · unfold clone_with_voice_design
    rw [strip_cond_false hT, strip_cond_false hK, hv]
    rfl

/-- Witness for C3 at concrete inputs, one per short-circuited precondition. -/
theorem C3_preconditions_checked_in_order_witness :
    clone_and_speak apiOk " " "key1" stV = ⟨(none, emptyTextMsg), stV, ⟨0, 0, none⟩⟩ ∧
    clone_with_voice_design apiOk "hello" "" stV = ⟨(none, missingKeyMsg), stV, ⟨0, 0, none⟩⟩ ∧
    clone_and_speak apiOk "hello" "key1" st0 = ⟨(none, noVoiceMsg), st0, ⟨0, 0, none⟩⟩ :=
  ⟨((C3_preconditions_checked_in_order apiOk " " "key1" stV).1 (by decide)).1,
   ((C3_preconditions_checked_in_order apiOk "hello" "" stV).2.1 (by decide) (by decide)).2,
   ((C3_preconditions_checked_in_order apiOk "hello" "key1" st0).2.2
      (by decide) (by decide) (by decide)).1⟩

/-- Claim C4: saving a valid recording tuple (with the waveform writer
returning normally) always succeeds: it writes the waveform to the fixed
path, overwriting whatever was there, records the path in the process-wide
state, returns the success message, and the store then reports the path as
present. -/
theorem C4_save_valid_recording_succeeds (rate : Nat) (samples : List Int) (st : AppState) :
    (save_voice (some (rate, samples)) none st).1 = saveOkMsg ∧
    (save_voice (some (rate, samples)) none st).2.saved_voice_path = some voice_filename ∧
    lookupFile (save_voice (some (rate, samples)) none st).2.files voice_filename
      = some (FileData.wav rate samples) ∧
    has_saved_voice (save_voice (some (rate, samples)) none st).2 = true := by
  refine ⟨rfl, rfl, ?_, ?_⟩
  · simp [save_voice, lookupFile_setFile]
  · simp [has_saved_voice, save_voice, lookupFile_setFile]

/-- Claim C7: saving with no recording supplied returns the failure status
and leaves the whole state — in particular the saved-voice path — exactly
as it was, whatever it contained before. -/
theorem C7_save_without_recording_keeps_state (write_exc : Option String) (st : AppState) :
    save_voice none write_exc st = (noAudioMsg, st) := rfl

/-- Claim C9: whenever `save_voice` returns anything other than the success
message — no recording, or the file write raising an exception — the
process-wide saved-voice path is unchanged, because it is assigned only
after the write returns. -/
theorem C9_save_failure_preserves_path (audio_tuple : Option (Nat × List Int))
    (write_exc : Option String) (st : AppState)
    (h : (save_voice audio_tuple write_exc st).1 ≠ saveOkMsg) :
    (save_voice audio_tuple write_exc st).2.saved_voice_path = st.saved_voice_path := by
  cases audio_tuple with
  | none => rfl
  | some p =>
    obtain ⟨r, smp⟩ := p
    cases write_exc with
    | some e => rfl
    | none => exact absurd rfl h

/-- Witness for C9: a failing save (an I/O error from the writer) leaves the
previously saved path in place. -/
theorem C9_save_failure_preserves_path_witness :
    (save_voice (some (8000, [5])) (some "disk full") stV).1 ≠ saveOkMsg ∧
    (save_voice (some (8000, [5])) (some "disk full") stV).2.saved_voice_path
      = stV.saved_voice_path :=
  ⟨by decide,
   C9_save_failure_preserves_path (some (8000, [5])) (some "disk full") stV (by decide)⟩

/-- Claim C10: neither generation function ever modifies the process-wide
saved-voice path, whatever the inputs, the remote outcomes and the state. -/
theorem C10_generation_preserves_saved_voice_path (api : Api) (text key : String)
    (st : AppState) :
    (clone_and_speak api text key st).state.saved_voice_path = st.saved_voice_path ∧
    (clone_with_voice_design api text key st).state.saved_voice_path = st.saved_voice_path := by
  constructor
  · unfold clone_and_speak
    repeat' split
    all_goals rfl
  · unfold clone_with_voice_design
    repeat' split
    all_goals rfl

/-- Claim C5: the outcome of the delete-voice cleanup call influences
nothing: the entire output of a generation call (returned pair, state and
trace) is the same whether `voices.delete` succeeds or raises, in both
modes. -/
theorem C5_delete_outcome_never_affects_result (api : Api) (d1 d2 : Bool)
    (text key : String) (st : AppState) :
    clone_and_speak { api with deleteOk := d1 } text key st
      = clone_and_speak { api with deleteOk := d2 } text key st ∧
    clone_with_voice_design { api with deleteOk := d1 } text key st
      = clone_with_voice_design { api with deleteOk := d2 } text key st :=
  ⟨rfl, rfl⟩

/-- Counterexample to claim C1 as stated: a run in which cloning succeeds
(`voices.add` returns the id "v1" and was called), synthesis is attempted
and raises, and yet `voices.delete` is never called — in either mode. The
delete call sits inside the big `try`, after synthesis, so a synthesis error
jumps straight to the `except` handler. -/
theorem C1_counterexample :
    apiSynthFails.addVoice = ApiResult.ok "v1" ∧
    (clone_and_speak apiSynthFails "hello" "key1" stV).trace = ⟨1, 1, none⟩ ∧
    (clone_with_voice_design apiSynthFails "hello" "key1" stV).trace = ⟨1, 1, none⟩ := by
  decide

/-- Claim C1 (amended): once validation passes, the delete-voice cleanup is
attempted (with the cloned voice id) exactly when both the clone step and
the synthesize step succeed; it is skipped both when cloning fails and when
synthesis fails after a successful clone. Identical in Basic and Pro modes. -/
theorem C1_cleanup_iff_clone_and_synthesis_succeed (api : Api) (text key : String)
    (st : AppState)
    (hT : pyStrip text ≠ "") (hK : pyStrip key ≠ "") (hv : has_saved_voice st = true) :
    (∀ e, api.addVoice = .err e →
      (clone_and_speak api text key st).trace.delete_called_with = none ∧
      (clone_with_voice_design api text key st).trace.delete_called_with = none) ∧
    (∀ v e, api.addVoice = .ok v → api.convert = .err e →
      (clone_and_speak api text key st).trace.delete_called_with = none ∧
      (clone_with_voice_design api text key st).trace.delete_called_with = none) ∧
    (∀ v chunks, api.addVoice = .ok v → api.convert = .ok chunks →
      (clone_and_speak api text key st).trace.delete_called_with = some v ∧
      (clone_with_voice_design api text key st).trace.delete_called_with = some v) := by
  rw [clone_and_speak_validation_pass api text key st hT hK hv,
      clone_with_voice_design_validation_pass api text key st hT hK hv]
  refine ⟨fun e ha => ?_, fun v e ha hc => ?_, fun v chunks ha hc => ?_⟩
  · rw [ha]
    exact ⟨rfl, rfl⟩
  · rw [ha, hc]
    exact ⟨rfl, rfl⟩
  · rw [ha, hc]
    exact ⟨rfl, rfl⟩

/-- Witness for the amended C1 at the three kinds of remote outcome. -/
theorem C1_cleanup_iff_clone_and_synthesis_succeed_witness :
    (clone_and_speak apiLimit "hello" "key1" stV).trace.delete_called_with = none ∧
    (clone_and_speak apiSynthFails "hello" "key1" stV).trace.delete_called_with = none ∧
    (clone_and_speak apiOk "hello" "key1" stV).trace.delete_called_with = some "v1" :=
  ⟨((C1_cleanup_iff_clone_and_synthesis_succeed apiLimit "hello" "key1" stV
      (by decide) (by decide) (by decide)).1 "limit reached" rfl).1,
   ((C1_cleanup_iff_clone_and_synthesis_succeed apiSynthFails "hello" "key1" stV
      (by decide) (by decide) (by decide)).2.1 "v1" "synthesis failed" rfl rfl).1,
   ((C1_cleanup_iff_clone_and_synthesis_succeed apiOk "hello" "key1" stV
      (by decide) (by decide) (by decide)).2.2 "v1" [[1, 2], [], [3]] rfl rfl).1⟩

/-- Counterexample to claim C2 as stated: the two modes do not share one
taxonomy. On the error message "limit reached" the Basic handler returns
the quota message, while the Pro handler — whose second branch tests only
"quota", "subscription" and "plan" — falls through to the generic message;
a Pro-mode generation surfaces exactly that generic message. -/
theorem C2_counterexample :
    classify_basic "limit reached" = quotaMsg ∧
    classify_pro "limit reached" = "❌ Error with voice cloning: limit reached" ∧
    classify_pro "limit reached" ≠ quotaMsg ∧
    apiLimit.addVoice = ApiResult.err "limit reached" ∧
    (clone_with_voice_design apiLimit "hello" "key1" stV).result
      = (none, "❌ Error with voice cloning: limit reached") := by
  decide

/-- Claim C2 (amended): every clone-step failure is classified by the
mode's own handler. The Basic handler follows the stated taxonomy ("quota"
or "limit" give the quota message; then "subscription", "plan" or "403"
give the plan message). The Pro handler instead maps "quota",
"subscription" and "plan" to its single plan message and has no rule for
"limit" or "403", which fall through to the generic message. -/
theorem C2_classification_per_mode (api : Api) (text key : String) (st : AppState)
    (e : String)
    (hT : pyStrip text ≠ "") (hK : pyStrip key ≠ "") (hv : has_saved_voice st = true) :
    (api.addVoice = .err e →
      (clone_and_speak api text key st).result = (none, classify_basic e) ∧
      (clone_with_voice_design api text key st).result = (none, classify_pro e)) ∧
    ((strContains (strLower e) "invalid_api_key" || strContains (strLower e) "unauthorized" ||
        strContains e "401") = false →
      ((strContains (strLower e) "quota" || strContains (strLower e) "limit") = true →
        classify_basic e = quotaMsg) ∧
      ((strContains (strLower e) "quota" || strContains (strLower e) "limit") = false →
        (strContains (strLower e) "subscription" || strContains (strLower e) "plan" ||
          strContains e "403") = true →
        classify_basic e = basicPlanMsg) ∧
      ((strContains (strLower e) "quota" || strContains (strLower e) "subscription" ||
          strContains (strLower e) "plan") = true →
        classify_pro e = proPlanMsg) ∧
      ((strContains (strLower e) "quota" || strContains (strLower e) "subscription" ||
          strContains (strLower e) "plan") = false →
        classify_pro e = "❌ Error with voice cloning: " ++ e)) := by
  constructor
  · intro ha
    rw [clone_and_speak_validation_pass api text key st hT hK hv,
        clone_with_voice_design_validation_pass api text key st hT hK hv, ha]
    exact ⟨rfl, rfl⟩
  · intro hinv
    refine ⟨fun hq => ?_, fun hq hp => ?_, fun hqp => ?_, fun hqp => ?_⟩
    · simp [classify_basic, hinv, hq]
    · simp [classify_basic, hinv, hq, hp]
    · simp [classify_pro, hinv, hqp]
    · simp [classify_pro, hinv, hqp]

/-- Witness for the amended C2: a concrete clone failure classified in each
mode, and each classifier branch exercised. -/
theorem C2_classification_per_mode_witness :
    (clone_and_speak apiLimit "hello" "key1" stV).result
      = (none, classify_basic "limit reached") ∧
    classify_basic "limit reached" = quotaMsg ∧
    classify_basic "no subscription" = basicPlanMsg ∧
    classify_pro "quota reached" = proPlanMsg ∧
    classify_pro "limit reached" = "❌ Error with voice cloning: " ++ "limit reached" :=
  ⟨((C2_classification_per_mode apiLimit "hello" "key1" stV "limit reached"
      (by decide) (by decide) (by decide)).1 rfl).1,
   ((C2_classification_per_mode apiLimit "hello" "key1" stV "limit reached"
      (by decide) (by decide) (by decide)).2 (by decide)).1 (by decide),
   (((C2_classification_per_mode apiLimit "hello" "key1" stV "no subscription"
      (by decide) (by decide) (by decide)).2 (by decide)).2.1 (by decide) (by decide)),
   (((C2_classification_per_mode apiLimit "hello" "key1" stV "quota reached"
      (by decide) (by decide) (by decide)).2 (by decide)).2.2.1 (by decide)),
   (((C2_classification_per_mode apiLimit "hello" "key1" stV "limit reached"
      (by decide) (by decide) (by decide)).2 (by decide)).2.2.2 (by decide))⟩

/-- Claim C6: a remote failure (at the clone step or at the synthesize
step) whose message contains "invalid_api_key" or "unauthorized"
case-insensitively, or the token "401" verbatim, makes `generate` return
`(none, invalid-credential message)` in both modes; the hypothesis says
nothing about quota/plan substrings, so this rule takes precedence over
those categories. -/
theorem C6_invalid_credential_precedence (api : Api) (text key : String) (st : AppState)
    (e : String)
    (hT : pyStrip text ≠ "") (hK : pyStrip key ≠ "") (hv : has_saved_voice st = true)
    (he : (strContains (strLower e) "invalid_api_key" || strContains (strLower e) "unauthorized" ||
      strContains e "401") = true) :
    (api.addVoice = .err e →
      (clone_and_speak api text key st).result = (none, invalidKeyMsg) ∧
      (clone_with_voice_design api text key st).result = (none, invalidKeyMsg)) ∧
    (∀ v, api.addVoice = .ok v → api.convert = .err e →
      (clone_and_speak api text key st).result = (none, invalidKeyMsg) ∧
      (clone_with_voice_design api text key st).result = (none, invalidKeyMsg)) := by
  have hb : classify_basic e = invalidKeyMsg := by simp [classify_basic, he]
  have hp : classify_pro e = invalidKeyMsg := by simp [classify_pro, he]
  rw [clone_and_speak_validation_pass api text key st hT hK hv,
      clone_with_voice_design_validation_pass api text key st hT hK hv]
  constructor
  · intro ha
    rw [ha]
    exact ⟨by simp [hb], by simp [hp]⟩
  · intro v ha hc
    rw [ha, hc]
    exact ⟨by simp [hb], by simp [hp]⟩

/-- Witness for C6: a 401 message that also mentions quota, plan,
subscription and limit is still classified as an invalid credential. -/
theorem C6_invalid_credential_precedence_witness :
    (clone_and_speak api401 "hello" "key1" stV).result = (none, invalidKeyMsg) ∧
    (clone_with_voice_design api401 "hello" "key1" stV).result = (none, invalidKeyMsg) :=
  (C6_invalid_credential_precedence api401 "hello" "key1" stV
    "401 quota plan subscription limit" (by decide) (by decide) (by decide) (by decide)).1 rfl

/-- Claim C8: on a successful generation in either mode, the returned path
is the fixed output path and the content of that file is the concatenation
of exactly the non-empty chunks of the synthesize stream, in order. -/
theorem C8_output_is_concatenation_of_nonempty_chunks (api : Api) (text key : String)
    (st : AppState) (v : String) (chunks : List (List Nat))
    (hT : pyStrip text ≠ "") (hK : pyStrip key ≠ "") (hv : has_saved_voice st = true)
    (ha : api.addVoice = .ok v) (hc : api.convert = .ok chunks) :
    (clone_and_speak api text key st).result = (some output_path, basicSuccessMsg) ∧
    lookupFile (clone_and_speak api text key st).state.files output_path
      = some (FileData.bytes ((chunks.filter (fun c => !c.isEmpty)).flatten)) ∧
    (clone_with_voice_design api text key st).result = (some output_path, proSuccessMsg) ∧
    lookupFile (clone_with_voice_design api text key st).state.files output_path
      = some (FileData.bytes ((chunks.filter (fun c => !c.isEmpty)).flatten)) := by
  rw [clone_and_speak_validation_pass api text key st hT hK hv,
      clone_with_voice_design_validation_pass api text key st hT hK hv, ha, hc]
  refine ⟨rfl, ?_, rfl, ?_⟩ <;>
    simp [lookupFile_setFile, writeChunksLoop_eq]

/-- Witness for C8: a stream with an empty middle chunk produces the file
`[1, 2] ++ [3]` at the fixed output path. -/
theorem C8_output_is_concatenation_of_nonempty_chunks_witness :
    (clone_and_speak apiOk "hello" "key1" stV).result = (some output_path, basicSuccessMsg) ∧
    lookupFile (clone_and_speak apiOk "hello" "key1" stV).state.files output_path
      = some (FileData.bytes [1, 2, 3]) := by
  have h := C8_output_is_concatenation_of_nonempty_chunks apiOk "hello" "key1" stV "v1"
    [[1, 2], [], [3]] (by decide) (by decide) (by decide) rfl rfl
  refine ⟨h.1, ?_⟩
  rw [h.2.1]
  decide

end VoiceClone
